import Mathlib

/-!
Shallow embedding of `src/flappy.cpp` (Flappy Dragon, raylib).

Floating-point values (`float`, `Vector2`) are modelled as exact rationals
(`ℚ`); integer values (`int`) as `ℤ`.  The C++ implicit `float → int`
conversion (truncation toward zero) is `truncQ`.  The process-wide random
engine is modelled by threading an explicit seed: `uniform_int_distribution
u(a, b)` on engine output `seed` yields `a + seed % (b - a + 1)`, which is
exactly the set of values the distribution can produce.  Rendering calls are
side-effect-free for the game state and are omitted; the input facility
(`IsKeyDown(KEY_SPACE)` / `IsKeyUp(KEY_SPACE)`) is modelled by one boolean
`space` per frame (`IsKeyUp` is the negation of `IsKeyDown`).
-/

namespace Flappy

def SCREEN_WIDTH : ℤ := 800

def SCREEN_HEIGHT : ℤ := 600

def GAP_SIZE : ℤ := SCREEN_HEIGHT / 3

def PLAYER_RADIUS : ℚ := 15

/-- C++ truncation toward zero of a `float` assigned to an `int`. -/
def truncQ (q : ℚ) : ℤ := if 0 ≤ q then ⌊q⌋ else ⌈q⌉

/-- raylib `Vector2`, components modelled as exact rationals. -/
structure Vec2 where
  x : ℚ
  y : ℚ
  deriving DecidableEq

/-- raylib `Rectangle` (x, y, width, height), modelled as exact rationals. -/
structure Rectangle where
  x : ℚ
  y : ℚ
  width : ℚ
  height : ℚ
  deriving DecidableEq

/-- raylib `CheckCollisionCircleRec` (external collaborator of the repo),
embedded from raylib's shapes module: early-out on the bounding box expanded
by the radius, accept when the center is within the rectangle's extent on
either axis, otherwise compare the squared corner distance with `radius²`. -/
def checkCollisionCircleRec (center : Vec2) (radius : ℚ) (r : Rectangle) : Bool :=
  let recCenterX := r.x + r.width / 2
  let recCenterY := r.y + r.height / 2
  let dx := |center.x - recCenterX|
  let dy := |center.y - recCenterY|
  if dx > r.width / 2 + radius then false
  else if dy > r.height / 2 + radius then false
  else if dx ≤ r.width / 2 then true
  else if dy ≤ r.height / 2 then true
  else decide ((dx - r.width / 2) ^ 2 + (dy - r.height / 2) ^ 2 ≤ radius ^ 2)

namespace Player

def DRAGON_MASS : ℚ := 1

def HORIZONTAL_VELOCITY : ℚ := 120

def GRAV_ACCELERATION : ℚ := 600

def FLAP_FORCE : ℚ := -20000

end Player

/-- `class Player`: position, velocity, constant acceleration, accumulated
force, inverse mass. -/
structure Player where
  pos : Vec2
  vel : Vec2
  acc : Vec2
  force_accum : Vec2
  inverse_mass : ℚ
  deriving DecidableEq

/-- `Player::Player(int x, int y)` together with the member initializers. -/
def Player.init (x y : ℤ) : Player :=
  { pos := ⟨(x : ℚ), (y : ℚ)⟩
    vel := ⟨Player.HORIZONTAL_VELOCITY, 0⟩
    acc := ⟨0, Player.GRAV_ACCELERATION⟩
    force_accum := ⟨0, 0⟩
    inverse_mass := 1 / Player.DRAGON_MASS }

/-- `Player::add_force(fx, fy)`. -/
def Player.add_force (p : Player) (fx fy : ℚ) : Player :=
  { p with force_accum := ⟨p.force_accum.x + fx, p.force_accum.y + fy⟩ }

/-- `Player::physics(dt)`: advance position, accumulate force into the
acceleration, advance velocity, clamp the top boundary (`pos.y < 0` sets
`pos.y = 0` and `vel.y = 0`), then clear the accumulated force. -/
def Player.physics (p : Player) (dt : ℚ) : Player :=
  let px := p.pos.x + p.vel.x * dt
  let py := p.pos.y + p.vel.y * dt
  let ax := p.acc.x + p.force_accum.x * p.inverse_mass
  let ay := p.acc.y + p.force_accum.y * p.inverse_mass
  let vx := p.vel.x + ax * dt
  let vy := p.vel.y + ay * dt
  let p2 : Player := { p with pos := ⟨px, py⟩, vel := ⟨vx, vy⟩ }
  let p3 : Player :=
    if p2.pos.y < 0 then { p2 with pos := ⟨p2.pos.x, 0⟩, vel := ⟨p2.vel.x, 0⟩ } else p2
  { p3 with force_accum := ⟨0, 0⟩ }

/-- `Player::flap()`: zero the vertical velocity and add `FLAP_FORCE` to the
accumulated force. -/
def Player.flap (p : Player) : Player :=
  ({ p with vel := ⟨p.vel.x, 0⟩ } : Player).add_force 0 Player.FLAP_FORCE

/-- `class Obstacle`: horizontal position, gap center, gap size (all `int`). -/
structure Obstacle where
  x : ℤ
  gap : ℤ
  size : ℤ
  deriving DecidableEq

namespace Obstacle

def OBSTACLE_WIDTH : ℤ := SCREEN_WIDTH / 20

/-- `Obstacle::create(x, score)`: gap center drawn by
`uniform_int_distribution(SCREEN_HEIGHT/9, SCREEN_HEIGHT*8/10)` from the
process random engine, here an explicit `seed`; gap size is `GAP_SIZE`.
The `score` argument is accepted and unused, as in the source. -/
def create (x : ℤ) (score : ℤ) (seed : ℕ) : Obstacle :=
  ⟨x, SCREEN_HEIGHT / 9 + (seed : ℤ) % ((SCREEN_HEIGHT * 8) / 10 - SCREEN_HEIGHT / 9 + 1),
    GAP_SIZE⟩

/-- `Obstacle::is_hit(player)`: circle of radius `PLAYER_RADIUS` at the
player's position against the bar above the gap and the bar below it. -/
def is_hit (o : Obstacle) (p : Player) : Bool :=
  let half_size : ℚ := (o.size : ℚ) / 2
  let upper : Rectangle := ⟨(o.x : ℚ), 0, (OBSTACLE_WIDTH : ℚ), (o.gap : ℚ) - half_size⟩
  let lower : Rectangle :=
    ⟨(o.x : ℚ), (o.gap : ℚ) + half_size, (OBSTACLE_WIDTH : ℚ),
      (SCREEN_HEIGHT : ℚ) - (o.gap : ℚ) - half_size⟩
  checkCollisionCircleRec p.pos PLAYER_RADIUS upper ||
    checkCollisionCircleRec p.pos PLAYER_RADIUS lower

end Obstacle

/-- `enum class GameMode`. -/
inductive GameMode where
  | Menu
  | Playing
  | End
  | Quitting
  deriving DecidableEq

/-- `class State`: mode, player, obstacle, score, can-flap debounce latch. -/
structure State where
  mode : GameMode
  player : Player
  obstacle : Obstacle
  score : ℤ
  can_flap : Bool
  deriving DecidableEq

namespace State

/-- The physics/input half of `State::on_play`: integrate, then flap if the
latch is armed and SPACE is down (disarming the latch). Returns the stepped
player and the latch before re-arming. -/
def stepPlayerInput (s : State) (dt : ℚ) (space : Bool) : Player × Bool :=
  let p := s.player.physics dt
  if s.can_flap && space then (p.flap, false) else (p, s.can_flap)

/-- `State::on_play()` (its game-state effect; drawing omitted): physics and
flap input, latch re-arm on key-up, then death check (off-bottom or
collision) with priority over the pass-through check (score and obstacle
replacement). `dt` is `GetFrameTime()`, `space` is `IsKeyDown(KEY_SPACE)`,
`seed` the random draw used if a new obstacle is created. -/
def on_play (s : State) (dt : ℚ) (space : Bool) (seed : ℕ) : State :=
  let pc := s.stepPlayerInput dt space
  let p := pc.1
  let can0 := pc.2
  let can := if !can0 && !space then true else can0
  if p.pos.y > (SCREEN_HEIGHT : ℚ) ∨ s.obstacle.is_hit p = true then
    { s with mode := GameMode.End, player := p, can_flap := can }
  else if p.pos.x > (s.obstacle.x : ℚ) then
    { s with
        player := p
        can_flap := can
        score := s.score + 1
        obstacle := Obstacle.create (truncQ (p.pos.x + (SCREEN_WIDTH : ℚ))) (s.score + 1) seed }
  else
    { s with player := p, can_flap := can }

/-- `State::restart()`: mode `Playing`, fresh player at `(5, SCREEN_HEIGHT/2)`,
fresh obstacle at `SCREEN_WIDTH`, score 0.  (`SCREEN_HEIGHT / 2.0` is passed
to the `int` constructor parameter, hence the integer 300.) -/
def restart (s : State) (seed : ℕ) : State :=
  { s with
      mode := GameMode.Playing
      player := Player.init 5 (SCREEN_HEIGHT / 2)
      obstacle := Obstacle.create SCREEN_WIDTH 0 seed
      score := 0 }

end State

/-! ### Spec-side definitions for the refinement claims -/

/-- The spec's words for the integrator: `pos += vel*dt`, then
`vel += (gravity + force/mass)*dt` (gravity is the constant vertical
acceleration, zero horizontally), then `force = 0`. -/
def eulerSpecStep (p : Player) (dt : ℚ) : Player :=
  { p with
      pos := ⟨p.pos.x + p.vel.x * dt, p.pos.y + p.vel.y * dt⟩
      vel := ⟨p.vel.x + (0 + p.force_accum.x * p.inverse_mass) * dt,
              p.vel.y + (Player.GRAV_ACCELERATION + p.force_accum.y * p.inverse_mass) * dt⟩
      force_accum := ⟨0, 0⟩ }

/-- The spec's words for the top-boundary clamp: a negative vertical
position is reset to 0 and the vertical velocity zeroed. -/
def clampTop (p : Player) : Player :=
  if p.pos.y < 0 then { p with pos := ⟨p.pos.x, 0⟩, vel := ⟨p.vel.x, 0⟩ } else p

/-- A command a body can receive during its lifetime: a flap or a physics
step of some duration. -/
inductive BodyOp where
  | flapCmd
  | stepCmd (dt : ℚ)

/-- The side condition of the spec on physics steps: durations are
nonnegative. -/
def BodyOp.dtNonneg : BodyOp → Prop
  | .flapCmd => True
  | .stepCmd dt => 0 ≤ dt

def applyBodyOp (p : Player) : BodyOp → Player
  | .flapCmd => p.flap
  | .stepCmd dt => p.physics dt

def runBodyOps (p : Player) (ops : List BodyOp) : Player :=
  ops.foldl applyBodyOp p

/-- A concrete obstacle with its gap centered on screen (gap 300, size 200):
the gap spans `(200, 400)`. -/
def oGap : Obstacle := ⟨800, 300, 200⟩

/-- A body at `oGap`'s column whose center, at `y = 201`, is strictly inside
the gap but within `PLAYER_RADIUS` of the upper bar. -/
def pInGap : Player := ⟨⟨800, 201⟩, ⟨120, 0⟩, ⟨0, 600⟩, ⟨0, 0⟩, 1⟩

/-- A body at `oGap`'s column at `y = 250`, inside the gap by more than
`PLAYER_RADIUS`. -/
def pMidGap : Player := ⟨⟨810, 250⟩, ⟨120, 0⟩, ⟨0, 600⟩, ⟨0, 0⟩, 1⟩

/-! ### Theorems -/

/-- When the circle's center lies within the rectangle's horizontal extent,
raylib's circle-rectangle test reduces to a vertical distance check: collision
iff the center's vertical distance from the rectangle's center is at most half
the height plus the radius. -/
theorem checkCollision_in_column (c : Vec2) (radius : ℚ) (r : Rectangle)
    (hrad : 0 ≤ radius) (hx1 : r.x ≤ c.x) (hx2 : c.x ≤ r.x + r.width) :
    checkCollisionCircleRec c radius r = true ↔
      |c.y - (r.y + r.height / 2)| ≤ r.height / 2 + radius := by
  have hdx : |c.x - (r.x + r.width / 2)| ≤ r.width / 2 :=
    abs_le.2 ⟨by linarith, by linarith⟩
  simp only [checkCollisionCircleRec]
  rw [if_neg (not_lt.2 (le_trans hdx (by linarith)))]
  by_cases hdy : |c.y - (r.y + r.height / 2)| > r.height / 2 + radius
  · rw [if_pos hdy]
    exact iff_of_false (by simp) (not_le.2 hdy)
  · rw [if_neg hdy, if_pos hdx]
    exact iff_of_true rfl (not_lt.1 hdy)

/-- C2: for every body state and every `dt ≥ 0` (for a body whose constant
acceleration field holds gravity, as every body the program constructs does),
`Player::physics` is exactly the semi-implicit Euler step
`pos += vel*dt; vel += (gravity + force/mass)*dt; force = 0` followed by the
top-boundary clamp. -/
theorem physics_eq_clamped_euler (p : Player) (dt : ℚ) (hdt : 0 ≤ dt)
    (hacc : p.acc = ⟨0, Player.GRAV_ACCELERATION⟩) :
    p.physics dt = clampTop (eulerSpecStep p dt) := by
  simp only [Player.physics, eulerSpecStep, clampTop, hacc]
  split_ifs <;> rfl

theorem physics_eq_clamped_euler_witness :
    (0 : ℚ) ≤ 1 / 2 ∧ (Player.init 5 300).acc = ⟨0, Player.GRAV_ACCELERATION⟩ ∧
      (Player.init 5 300).physics (1 / 2) = clampTop (eulerSpecStep (Player.init 5 300) (1 / 2)) :=
  ⟨by norm_num, rfl, physics_eq_clamped_euler (Player.init 5 300) (1 / 2) (by norm_num) rfl⟩

/-- C3: for every input state and every `dt ≥ 0`, the vertical position is
nonnegative immediately after `Player::physics`, and whenever the clamp fired
(the pre-clamp vertical position `pos.y + vel.y*dt` was negative) the vertical
velocity is exactly 0 immediately after. -/
theorem physics_pos_y_nonneg (p : Player) (dt : ℚ) (hdt : 0 ≤ dt) :
    0 ≤ (p.physics dt).pos.y ∧
      (p.pos.y + p.vel.y * dt < 0 → (p.physics dt).vel.y = 0) := by
  simp only [Player.physics]
  split_ifs with h
  · exact ⟨le_refl 0, fun _ => rfl⟩
  · exact ⟨not_lt.1 h, fun hc => absurd hc h⟩

theorem physics_pos_y_nonneg_witness :
    (0 : ℚ) ≤ 1 ∧ 0 ≤ ((Player.init 5 0).physics 1).pos.y ∧
      ((Player.init 5 0).pos.y + (Player.init 5 0).vel.y * 1 < 0 →
        ((Player.init 5 0).physics 1).vel.y = 0) :=
  ⟨by norm_num, physics_pos_y_nonneg (Player.init 5 0) 1 (by norm_num)⟩

/-- C6: for every position, score argument and random outcome,
`Obstacle::create` returns an obstacle at that position whose gap center lies
in `[SCREEN_HEIGHT/9, SCREEN_HEIGHT*8/10]` (inclusive) and whose gap size is
the constant `SCREEN_HEIGHT/3`, the same for every obstacle created. -/
theorem create_in_bounds (x score : ℤ) (seed : ℕ) :
    (Obstacle.create x score seed).x = x ∧
      SCREEN_HEIGHT / 9 ≤ (Obstacle.create x score seed).gap ∧
      (Obstacle.create x score seed).gap ≤ SCREEN_HEIGHT * 8 / 10 ∧
      (Obstacle.create x score seed).size = SCREEN_HEIGHT / 3 := by
  refine ⟨rfl, ?_, ?_, rfl⟩ <;>
    · simp only [Obstacle.create, SCREEN_HEIGHT]
      have h0 : (0 : ℤ) ≤ (seed : ℤ) % 415 := Int.emod_nonneg _ (by norm_num)
      have h1 : (seed : ℤ) % 415 < 415 := Int.emod_lt_of_pos _ (by norm_num)
      omega

/-- C7: `Player::flap` zeroes the vertical velocity and adds `FLAP_FORCE` to
the accumulated force, leaving position (and horizontal components) untouched;
a flap followed by one physics step of duration `dt ≥ 0` with no other
accumulated force yields vertical velocity
`(GRAV_ACCELERATION + FLAP_FORCE * inverse_mass) * dt`, a change that scales
with `dt`. -/
theorem flap_then_physics_velocity (p : Player) (dt : ℚ)
    (hacc : p.acc.y = Player.GRAV_ACCELERATION) (hf : p.force_accum.y = 0)
    (hy : 0 ≤ p.pos.y) (hdt : 0 ≤ dt) :
    p.flap.vel.y = 0 ∧ p.flap.pos = p.pos ∧ p.flap.vel.x = p.vel.x ∧
      p.flap.force_accum.x = p.force_accum.x ∧
      p.flap.force_accum.y = p.force_accum.y + Player.FLAP_FORCE ∧
      (p.flap.physics dt).vel.y =
        (Player.GRAV_ACCELERATION + Player.FLAP_FORCE * p.inverse_mass) * dt := by
  refine ⟨rfl, rfl, rfl, by simp [Player.flap, Player.add_force], rfl, ?_⟩
  simp only [Player.flap, Player.add_force, Player.physics, hf]
  split_ifs with h
  · exact absurd (show p.pos.y < 0 by simpa using h) (not_lt.2 hy)
  · simp only [hacc]
    ring

theorem flap_then_physics_velocity_witness :
    ((Player.init 5 300).acc.y = Player.GRAV_ACCELERATION ∧
        (Player.init 5 300).force_accum.y = 0 ∧ (0 : ℚ) ≤ (Player.init 5 300).pos.y ∧
        (0 : ℚ) ≤ 1 / 60) ∧
      ((Player.init 5 300).flap.physics (1 / 60)).vel.y =
        (Player.GRAV_ACCELERATION + Player.FLAP_FORCE * (Player.init 5 300).inverse_mass) *
          (1 / 60) :=
  ⟨⟨rfl, rfl, by norm_num [Player.init], by norm_num⟩,
    (flap_then_physics_velocity (Player.init 5 300) (1 / 60) rfl rfl
      (by norm_num [Player.init]) (by norm_num)).2.2.2.2.2⟩

/-- C8: `State::restart` sets the mode to `Playing`, reinitializes the body to
the fixed initial position `(5, SCREEN_HEIGHT/2)` and velocity, creates a
fresh obstacle at `SCREEN_WIDTH` (ahead of the body), and resets the score
to 0. -/
theorem restart_resets_session (s : State) (seed : ℕ) :
    (s.restart seed).mode = GameMode.Playing ∧
      (s.restart seed).player = Player.init 5 (SCREEN_HEIGHT / 2) ∧
      (s.restart seed).obstacle = Obstacle.create SCREEN_WIDTH 0 seed ∧
      (s.restart seed).obstacle.x = SCREEN_WIDTH ∧
      (s.restart seed).player.pos.x < ((s.restart seed).obstacle.x : ℚ) ∧
      (s.restart seed).score = 0 := by
  refine ⟨rfl, rfl, rfl, rfl, ?_, rfl⟩
  norm_num [State.restart, Player.init, Obstacle.create, SCREEN_WIDTH, SCREEN_HEIGHT]

/-- C1: in mode `Playing`, after the physics/input step, death (off-bottom or
collision) is checked first and sends the mode to `End` with score and
obstacle unchanged; otherwise passing the obstacle (`pos.x > obstacle.x`)
increments the score by exactly 1 and replaces the obstacle with one created
at the post-advance `pos.x` plus the screen width (truncated to `int`); the
two outcomes never both occur in one frame. -/
theorem on_play_death_before_pass (s : State) (dt : ℚ) (space : Bool) (seed : ℕ)
    (hmode : s.mode = GameMode.Playing) :
    (((s.stepPlayerInput dt space).1.pos.y > (SCREEN_HEIGHT : ℚ) ∨
        s.obstacle.is_hit (s.stepPlayerInput dt space).1 = true) →
      (s.on_play dt space seed).mode = GameMode.End ∧
        (s.on_play dt space seed).score = s.score ∧
        (s.on_play dt space seed).obstacle = s.obstacle) ∧
    (¬((s.stepPlayerInput dt space).1.pos.y > (SCREEN_HEIGHT : ℚ) ∨
        s.obstacle.is_hit (s.stepPlayerInput dt space).1 = true) →
      (s.stepPlayerInput dt space).1.pos.x > (s.obstacle.x : ℚ) →
      (s.on_play dt space seed).mode = GameMode.Playing ∧
        (s.on_play dt space seed).score = s.score + 1 ∧
        (s.on_play dt space seed).obstacle =
          Obstacle.create (truncQ ((s.stepPlayerInput dt space).1.pos.x + (SCREEN_WIDTH : ℚ)))
            (s.score + 1) seed) ∧
    ¬((s.on_play dt space seed).mode = GameMode.End ∧
        (s.on_play dt space seed).score = s.score + 1) := by
  refine ⟨fun hd => ?_, fun hn hp => ?_, fun hc => ?_⟩
  · simp only [State.on_play]
    rw [if_pos hd]
    exact ⟨rfl, rfl, rfl⟩
  · simp only [State.on_play]
    rw [if_neg hn, if_pos hp]
    exact ⟨hmode, rfl, rfl⟩
  · by_cases h1 : (s.stepPlayerInput dt space).1.pos.y > (SCREEN_HEIGHT : ℚ) ∨
        s.obstacle.is_hit (s.stepPlayerInput dt space).1 = true
    · simp only [State.on_play] at hc
      rw [if_pos h1] at hc
      dsimp at hc
      omega
    · by_cases h2 : (s.stepPlayerInput dt space).1.pos.x > (s.obstacle.x : ℚ)
      · simp only [State.on_play] at hc
        rw [if_neg h1, if_pos h2] at hc
        dsimp at hc
        rw [hmode] at hc
        exact absurd hc.1 (by decide)
      · simp only [State.on_play] at hc
        rw [if_neg h1, if_neg h2] at hc
        dsimp at hc
        omega

theorem on_play_death_before_pass_witness :
    let s : State := ⟨GameMode.Playing, Player.init 5 300, ⟨800, 300, 200⟩, 0, true⟩
    s.mode = GameMode.Playing ∧
      ¬((s.on_play 1 false 0).mode = GameMode.End ∧ (s.on_play 1 false 0).score = s.score + 1) :=
  ⟨rfl, (on_play_death_before_pass ⟨GameMode.Playing, Player.init 5 300, ⟨800, 300, 200⟩, 0, true⟩
    1 false 0 rfl).2.2⟩

/-- C5 counterexample: a frame that starts in `Playing` with
`pos.y = SCREEN_HEIGHT + 1` but an upward (negative) vertical velocity does
not transition to `End`: `Player::physics` runs before the death check, and
the body re-enters the screen during the frame. -/
theorem on_play_high_y_cex :
    (State.on_play
        ⟨GameMode.Playing,
          ⟨⟨5, (SCREEN_HEIGHT : ℚ) + 1⟩, ⟨120, -2000⟩, ⟨0, 600⟩, ⟨0, 0⟩, 1⟩,
          ⟨800, 300, 200⟩, 0, true⟩ (1 / 10) false 0).mode = GameMode.Playing ∧
      (State.on_play
        ⟨GameMode.Playing,
          ⟨⟨5, (SCREEN_HEIGHT : ℚ) + 1⟩, ⟨120, -2000⟩, ⟨0, 600⟩, ⟨0, 0⟩, 1⟩,
          ⟨800, 300, 200⟩, 0, true⟩ (1 / 10) false 0).mode ≠ GameMode.End := by
  constructor <;>
    norm_num [State.on_play, State.stepPlayerInput, Player.physics, Player.flap, Player.add_force,
      Obstacle.is_hit, checkCollisionCircleRec, Obstacle.OBSTACLE_WIDTH, SCREEN_WIDTH,
      SCREEN_HEIGHT, PLAYER_RADIUS] <;>
    decide

/-- C5 amended: starting a frame in `Playing` with `pos.y = SCREEN_HEIGHT + 1`
and a nonnegative (downward or zero) vertical velocity, a single `on_play`
frame with `dt ≥ 0` ends with mode `End` regardless of key state, obstacle and
random outcome. -/
theorem on_play_high_y_ends (s : State) (dt : ℚ) (space : Bool) (seed : ℕ)
    (hmode : s.mode = GameMode.Playing) (hy : s.player.pos.y = (SCREEN_HEIGHT : ℚ) + 1)
    (hvy : 0 ≤ s.player.vel.y) (hdt : 0 ≤ dt) :
    (s.on_play dt space seed).mode = GameMode.End := by
  have hstep : (SCREEN_HEIGHT : ℚ) < (s.stepPlayerInput dt space).1.pos.y := by
    have hmul : 0 ≤ s.player.vel.y * dt := mul_nonneg hvy hdt
    simp only [State.stepPlayerInput, Player.physics, Player.flap, Player.add_force]
    split_ifs with hflap hclamp hclamp
    · exact absurd (show s.player.pos.y + s.player.vel.y * dt < 0 from hclamp)
        (by rw [hy]; norm_num [SCREEN_HEIGHT]; linarith)
    · dsimp
      rw [hy]
      norm_num [SCREEN_HEIGHT]
      linarith
    · exact absurd (show s.player.pos.y + s.player.vel.y * dt < 0 from hclamp)
        (by rw [hy]; norm_num [SCREEN_HEIGHT]; linarith)
    · dsimp
      rw [hy]
      norm_num [SCREEN_HEIGHT]
      linarith
  simp only [State.on_play]
  rw [if_pos (Or.inl hstep)]

theorem on_play_high_y_ends_witness :
    let s : State := ⟨GameMode.Playing,
      ⟨⟨5, (SCREEN_HEIGHT : ℚ) + 1⟩, ⟨120, 0⟩, ⟨0, 600⟩, ⟨0, 0⟩, 1⟩, ⟨800, 300, 200⟩, 0, true⟩
    (s.mode = GameMode.Playing ∧ s.player.pos.y = (SCREEN_HEIGHT : ℚ) + 1 ∧
        (0 : ℚ) ≤ s.player.vel.y ∧ (0 : ℚ) ≤ 1 / 10) ∧
      (s.on_play (1 / 10) true 0).mode = GameMode.End :=
  ⟨⟨rfl, rfl, le_refl 0, by norm_num⟩,
    on_play_high_y_ends
      ⟨GameMode.Playing, ⟨⟨5, (SCREEN_HEIGHT : ℚ) + 1⟩, ⟨120, 0⟩, ⟨0, 600⟩, ⟨0, 0⟩, 1⟩,
        ⟨800, 300, 200⟩, 0, true⟩ (1 / 10) true 0 rfl rfl (le_refl 0) (by norm_num)⟩

/-- C10: `State::restart` does not reset the can-flap debounce latch; if the
latch is disarmed when `restart` fires, the next `Playing` frame with SPACE
still held applies no flap (the player is exactly the physics step) and the
latch stays disarmed until the key is released. -/
theorem restart_keeps_flap_latch (s : State) (seed : ℕ) (dt : ℚ) (seed2 : ℕ)
    (h : s.can_flap = false) :
    (s.restart seed).can_flap = s.can_flap ∧
      ((s.restart seed).on_play dt true seed2).player = (s.restart seed).player.physics dt ∧
      ((s.restart seed).on_play dt true seed2).can_flap = false := by
  refine ⟨rfl, ?_, ?_⟩ <;>
    · simp only [State.on_play, State.stepPlayerInput, State.restart, h]
      split_ifs <;> simp_all

/-- C9: for every body with zero horizontal accumulated force and zero
horizontal acceleration (as every body the program constructs), no sequence of
`flap` calls and `physics dt` steps with `dt ≥ 0` changes the horizontal
velocity; the horizontal accumulated force and acceleration stay 0
throughout. -/
theorem horizontal_velocity_constant (p : Player) (ops : List BodyOp)
    (hfx : p.force_accum.x = 0) (hax : p.acc.x = 0)
    (hops : ∀ op ∈ ops, op.dtNonneg) :
    (runBodyOps p ops).vel.x = p.vel.x ∧ (runBodyOps p ops).force_accum.x = 0 ∧
      (runBodyOps p ops).acc.x = 0 := by
  induction ops generalizing p with
  | nil => exact ⟨rfl, hfx, hax⟩
  | cons op rest ih =>
    have hrest : ∀ o ∈ rest, o.dtNonneg := fun o ho => hops o (List.mem_cons_of_mem _ ho)
    have hq : runBodyOps p (op :: rest) = runBodyOps (applyBodyOp p op) rest := rfl
    cases op with
    | flapCmd =>
      have hfx2 : (applyBodyOp p .flapCmd).force_accum.x = 0 := by
        simp [applyBodyOp, Player.flap, Player.add_force, hfx]
      have hax2 : (applyBodyOp p .flapCmd).acc.x = 0 := hax
      have h := ih (applyBodyOp p .flapCmd) hfx2 hax2 hrest
      rw [hq]
      exact ⟨h.1.trans (by simp [applyBodyOp, Player.flap, Player.add_force]), h.2.1, h.2.2⟩
    | stepCmd dt =>
      have hfx2 : (applyBodyOp p (.stepCmd dt)).force_accum.x = 0 := by
        simp only [applyBodyOp, Player.physics]
      have hax2 : (applyBodyOp p (.stepCmd dt)).acc.x = 0 := by
        simp only [applyBodyOp, Player.physics]
        split_ifs <;> exact hax
      have hvx2 : (applyBodyOp p (.stepCmd dt)).vel.x = p.vel.x := by
        simp only [applyBodyOp, Player.physics]
        split_ifs <;> (dsimp; rw [hfx, hax]; ring_nf)
      have h := ih (applyBodyOp p (.stepCmd dt)) hfx2 hax2 hrest
      rw [hq]
      exact ⟨h.1.trans hvx2, h.2.1, h.2.2⟩

theorem horizontal_velocity_constant_witness :
    ((Player.init 5 300).force_accum.x = 0 ∧ (Player.init 5 300).acc.x = 0 ∧
        (∀ op ∈ [BodyOp.flapCmd, BodyOp.stepCmd 1, BodyOp.flapCmd], op.dtNonneg)) ∧
      (runBodyOps (Player.init 5 300) [BodyOp.flapCmd, BodyOp.stepCmd 1, BodyOp.flapCmd]).vel.x =
        (Player.init 5 300).vel.x :=
  ⟨⟨rfl, rfl, by intro op hop; fin_cases hop <;> first
      | exact trivial
      | exact (by norm_num : (0:ℚ) ≤ 1)⟩,
    (horizontal_velocity_constant (Player.init 5 300)
      [BodyOp.flapCmd, BodyOp.stepCmd 1, BodyOp.flapCmd] rfl rfl
      (by intro op hop; fin_cases hop <;> first
        | exact trivial
        | exact (by norm_num : (0:ℚ) ≤ 1))).1⟩

theorem restart_keeps_flap_latch_witness :
    let s : State := ⟨GameMode.End, Player.init 5 300, ⟨800, 300, 200⟩, 3, false⟩
    s.can_flap = false ∧
      ((s.restart 0).can_flap = s.can_flap ∧
        ((s.restart 0).on_play 1 true 0).player = (s.restart 0).player.physics 1 ∧
        ((s.restart 0).on_play 1 true 0).can_flap = false) :=
  ⟨rfl, restart_keeps_flap_latch ⟨GameMode.End, Player.init 5 300, ⟨800, 300, 200⟩, 3, false⟩
    0 1 0 rfl⟩

/-- C4 counterexample: the body `pInGap` is at `oGap`'s column with its
vertical coordinate 201 strictly inside the gap (strictly between
`gap - size/2 = 200` and `gap + size/2 = 400`), yet `Obstacle::is_hit`
returns true: the test collides a circle of radius `PLAYER_RADIUS` with the
bars, not the body's center point. -/
theorem is_hit_inside_gap_cex :
    ((oGap.gap : ℚ) - (oGap.size : ℚ) / 2 < pInGap.pos.y ∧
        pInGap.pos.y < (oGap.gap : ℚ) + (oGap.size : ℚ) / 2 ∧
        (oGap.x : ℚ) = pInGap.pos.x) ∧
      oGap.is_hit pInGap = true := by
  constructor
  · norm_num [oGap, pInGap]
  · norm_num [oGap, pInGap, Obstacle.is_hit, checkCollisionCircleRec,
      Obstacle.OBSTACLE_WIDTH, SCREEN_WIDTH, SCREEN_HEIGHT, PLAYER_RADIUS]

/-- C4 amended: for a body at the obstacle's column (horizontally within the
obstacle's bar, on screen vertically, both bars nondegenerate),
`Obstacle::is_hit` returns true iff the body's vertical coordinate is within
`PLAYER_RADIUS` of either bar — at or above `gap - size/2 + PLAYER_RADIUS`,
or at or below `gap + size/2 - PLAYER_RADIUS`; in particular it returns false
iff the body is strictly inside the gap by more than `PLAYER_RADIUS`. -/
theorem is_hit_iff_near_bars (o : Obstacle) (p : Player)
    (hx1 : (o.x : ℚ) ≤ p.pos.x) (hx2 : p.pos.x ≤ (o.x : ℚ) + (Obstacle.OBSTACLE_WIDTH : ℚ))
    (hy0 : 0 ≤ p.pos.y) (hy1 : p.pos.y ≤ (SCREEN_HEIGHT : ℚ))
    (hg0 : 0 ≤ (o.gap : ℚ) - (o.size : ℚ) / 2)
    (hg1 : (o.gap : ℚ) + (o.size : ℚ) / 2 ≤ (SCREEN_HEIGHT : ℚ)) :
    o.is_hit p = true ↔
      (p.pos.y ≤ (o.gap : ℚ) - (o.size : ℚ) / 2 + PLAYER_RADIUS ∨
        (o.gap : ℚ) + (o.size : ℚ) / 2 - PLAYER_RADIUS ≤ p.pos.y) := by
  have hrad : (0 : ℚ) ≤ PLAYER_RADIUS := by norm_num [PLAYER_RADIUS]
  simp only [Obstacle.is_hit, Bool.or_eq_true]
  rw [checkCollision_in_column p.pos PLAYER_RADIUS _ hrad (by dsimp; linarith)
      (by dsimp; linarith),
    checkCollision_in_column p.pos PLAYER_RADIUS _ hrad (by dsimp; linarith)
      (by dsimp; linarith)]
  dsimp only
  constructor
  · rintro (h | h)
    · rw [abs_le] at h
      left
      linarith [h.2]
    · rw [abs_le] at h
      right
      linarith [h.1]
  · rintro (h | h)
    · left
      rw [abs_le]
      exact ⟨by linarith, by linarith⟩
    · right
      rw [abs_le]
      exact ⟨by linarith, by linarith⟩

theorem is_hit_iff_near_bars_witness :
    (((oGap.x : ℚ) ≤ pMidGap.pos.x ∧
        pMidGap.pos.x ≤ (oGap.x : ℚ) + (Obstacle.OBSTACLE_WIDTH : ℚ) ∧
        (0 : ℚ) ≤ pMidGap.pos.y ∧ pMidGap.pos.y ≤ (SCREEN_HEIGHT : ℚ) ∧
        (0 : ℚ) ≤ (oGap.gap : ℚ) - (oGap.size : ℚ) / 2 ∧
        (oGap.gap : ℚ) + (oGap.size : ℚ) / 2 ≤ (SCREEN_HEIGHT : ℚ)) ∧
      (oGap.is_hit pMidGap = true ↔
        (pMidGap.pos.y ≤ (oGap.gap : ℚ) - (oGap.size : ℚ) / 2 + PLAYER_RADIUS ∨
          (oGap.gap : ℚ) + (oGap.size : ℚ) / 2 - PLAYER_RADIUS ≤ pMidGap.pos.y))) :=
  ⟨⟨by norm_num [oGap, pMidGap], by
      norm_num [oGap, pMidGap, Obstacle.OBSTACLE_WIDTH, SCREEN_WIDTH],
    by norm_num [pMidGap], by norm_num [pMidGap, SCREEN_HEIGHT],
    by norm_num [oGap], by norm_num [oGap, SCREEN_HEIGHT]⟩,
    is_hit_iff_near_bars oGap pMidGap (by norm_num [oGap, pMidGap])
      (by norm_num [oGap, pMidGap, Obstacle.OBSTACLE_WIDTH, SCREEN_WIDTH])
      (by norm_num [pMidGap]) (by norm_num [pMidGap, SCREEN_HEIGHT])
      (by norm_num [oGap]) (by norm_num [oGap, SCREEN_HEIGHT])⟩

end Flappy
